import Mathlib

/-!
Verification of the chef-analyze cookbook reporting pipeline.

The repository splits into a presentation layer (`cmd/report.go`, present in
the source tree) and a cookbook aggregation engine plus static-analyzer
adapter (`pkg/reporting`, referenced by the CLI but not part of the given
sources).  The presentation layer is embedded directly from `cmd/report.go`;
the engine and adapter are modelled from the specification, stage by stage.
-/

/-- One static-analysis finding, as consumed by `cmd/report.go`
(`o.CopName`, `o.Correctable`, `o.Message`). -/
structure CookbookOffense where
  CopName : String
  Message : String
  Correctable : Bool
deriving DecidableEq

/-- One analyzed file with its ordered offenses (`f.Path`, `f.Offenses`
in `cmd/report.go`). -/
structure CookbookFile where
  Path : String
  Offenses : List CookbookOffense
deriving DecidableEq

/-- The engine's per-cookbook output record, with the fields read by
`cmd/report.go`: `Name`, `Version`, `Files`, `Nodes`, `DownloadError`,
`CookstyleError`, `UsageLookupError` (errors modelled as message strings,
as the presentation layer only formats them with percent-v). -/
structure CookbookRecord where
  Name : String
  Version : String
  Files : List CookbookFile
  Nodes : List String
  DownloadError : Option String
  CookstyleError : Option String
  UsageLookupError : Option String
deriving DecidableEq

/-- Sum of the offense-list lengths over a file sequence. -/
def countOffenses : List CookbookFile → Nat
  | [] => 0
  | f :: fs => f.Offenses.length + countOffenses fs

/-- Number of auto-correctable offenses in one offense list. -/
def countCorrectableOff : List CookbookOffense → Nat
  | [] => 0
  | o :: os => (if o.Correctable then 1 else 0) + countCorrectableOff os

/-- Number of auto-correctable offenses over a file sequence. -/
def countCorrectable : List CookbookFile → Nat
  | [] => 0
  | f :: fs => countCorrectableOff f.Offenses + countCorrectable fs

/-- Modelled from the spec: the derived total offense count of a record
(`record.NumOffenses()` in `cmd/report.go`; the method body lives in the
absent `pkg/reporting` package).  Spec: "total offense count equals the sum
of all offenses across `files`". -/
def CookbookRecord.NumOffenses (r : CookbookRecord) : Nat :=
  countOffenses r.Files

/-- Modelled from the spec: the derived auto-correctable count of a record
(`record.NumCorrectable()` in `cmd/report.go`; the method body lives in the
absent `pkg/reporting` package).  Spec: "Auto-correctable count for a record
equals the count of offenses across its `files` with `autoCorrectable =
true`". -/
def CookbookRecord.NumCorrectable (r : CookbookRecord) : Nat :=
  countCorrectable r.Files

/-- Identity tuple for one cookbook version, from the catalog listing. -/
structure CookbookVersionRef where
  Name : String
  Version : String
deriving DecidableEq

/-- Modelled from the spec: the three external collaborators consumed by the
aggregation engine (Catalog Client listing and download, Static Analyzer
Adapter, Usage Index), none of which is part of the given sources.  Each is a
fallible operation returning either its value or an error message. -/
structure CookbookBackend where
  Listing : Except String (List CookbookVersionRef)
  Download : CookbookVersionRef → Except String String
  RunCookstyle : String → Except String (List CookbookFile)
  NodesUsing : CookbookVersionRef → Except String (List String)

/-- Node list obtained from a usage-lookup outcome: the looked-up names on
success, empty on failure. -/
def usageNodes (res : Except String (List String)) : List String :=
  match res with
  | .ok ns => ns
  | .error _ => []

/-- Error slot obtained from a usage-lookup outcome. -/
def usageError (res : Except String (List String)) : Option String :=
  match res with
  | .ok _ => none
  | .error e => some e

/-- Modelled from the spec: per-ref record assembly of the Cookbook
Aggregation Engine (absent `pkg/reporting` package), following section 4.1:
usage lookup is attempted independently of the download outcome; analysis
runs only after a successful download; a failing stage fills its error slot
and leaves `Files` empty; a usage-lookup failure does not invalidate
violation data already gathered. -/
def aggregateOne (b : CookbookBackend) (ref : CookbookVersionRef) : CookbookRecord :=
  match b.Download ref with
  | .error e =>
    ⟨ref.Name, ref.Version, [], usageNodes (b.NodesUsing ref), some e, none,
      usageError (b.NodesUsing ref)⟩
  | .ok path =>
    match b.RunCookstyle path with
    | .error e =>
      ⟨ref.Name, ref.Version, [], usageNodes (b.NodesUsing ref), none, some e,
        usageError (b.NodesUsing ref)⟩
    | .ok files =>
      ⟨ref.Name, ref.Version, files, usageNodes (b.NodesUsing ref), none, none,
        usageError (b.NodesUsing ref)⟩

set_option linter.unusedVariables false in
/-- Modelled from the spec: the engine entry point
`reporting.NewCookbooks(cookbooks, search, skipUnused)` called from
`cmd/report.go` (absent `pkg/reporting` package).  A failing catalog listing
aborts the run; otherwise one record is assembled per listed ref.  Per the
spec, `skipUnused` never removes a record at the engine level. -/
def NewCookbooks (b : CookbookBackend) (skipUnused : Bool) :
    Except String (List CookbookRecord) :=
  match b.Listing with
  | .error e => .error e
  | .ok refs => .ok (refs.map (aggregateOne b))

/-- Offense list of a record flattened into one sequence. -/
def allOffenses (r : CookbookRecord) : List CookbookOffense :=
  (r.Files.map CookbookFile.Offenses).flatten

theorem countOffenses_eq_flatten (fs : List CookbookFile) :
    countOffenses fs = ((fs.map CookbookFile.Offenses).flatten).length := by
  induction fs with
  | nil => rfl
  | cons f fs ih => simp [countOffenses, ih]

theorem countCorrectableOff_eq_filter (os : List CookbookOffense) :
    countCorrectableOff os = (os.filter (fun o => o.Correctable)).length := by
  induction os with
  | nil => rfl
  | cons o os ih =>
    by_cases h : o.Correctable <;>
      simp [countCorrectableOff, List.filter, h, ih, Nat.add_comm]

theorem countCorrectable_eq_filter (fs : List CookbookFile) :
    countCorrectable fs =
      (((fs.map CookbookFile.Offenses).flatten).filter (fun o => o.Correctable)).length := by
  induction fs with
  | nil => rfl
  | cons f fs ih => simp [countCorrectable, ih, countCorrectableOff_eq_filter]

/-- C7: the auto-correctable count of a record equals the number of offenses
across all its files whose correctable flag is true, and the total offense
count equals the sum of the lengths of the offense lists of all files
(stated via the flattened offense sequence). -/
theorem numOffenses_and_numCorrectable_spec (r : CookbookRecord) :
    r.NumOffenses = (allOffenses r).length ∧
      r.NumCorrectable = ((allOffenses r).filter (fun o => o.Correctable)).length := by
  constructor
  · exact countOffenses_eq_flatten r.Files
  · exact countCorrectable_eq_filter r.Files

/-- A concrete ref used by the concrete backends below. -/
def refW : CookbookVersionRef := ⟨"apache2", "1.0.0"⟩

/-- Backend in which every per-cookbook stage fails but the catalog listing
succeeds. -/
def failingBackend : CookbookBackend :=
  ⟨.ok [refW], fun _ => .error "network error", fun _ => .error "cookstyle failed",
    fun _ => .error "search failed"⟩

/-- Backend in which the download fails while the usage lookup succeeds. -/
def downloadFailBackend : CookbookBackend :=
  ⟨.ok [refW], fun _ => .error "network error", fun _ => .ok [],
    fun _ => .ok ["nodeA", "nodeB"]⟩

/-- Two concrete offenses, one auto-correctable. -/
def offenseA : CookbookOffense := ⟨"Chef/Deprecation", "deprecated resource", true⟩

/-- A non-correctable offense. -/
def offenseB : CookbookOffense := ⟨"Style/Layout", "bad layout", false⟩

/-- A concrete analyzed file with two offenses. -/
def fileW : CookbookFile := ⟨"recipes/default.rb", [offenseA, offenseB]⟩

/-- Backend in which download and analysis succeed but the usage lookup
fails. -/
def usageFailBackend : CookbookBackend :=
  ⟨.ok [refW], fun _ => .ok "/tmp/apache2", fun _ => .ok [fileW],
    fun _ => .error "search failed"⟩

/-- Backend in which the analysis stage fails while the usage lookup
succeeds with a node. -/
def cookstyleFailBackend : CookbookBackend :=
  ⟨.ok [refW], fun _ => .ok "/tmp/apache2", fun _ => .error "cookstyle crashed",
    fun _ => .ok ["nodeA"]⟩

/-- Backend whose catalog listing itself fails. -/
def badCatalogBackend : CookbookBackend :=
  ⟨.error "catalog down", fun _ => .ok "", fun _ => .ok [], fun _ => .ok []⟩

/-- C4: when the download of a cookbook version fails while the usage lookup
succeeds, the assembled record carries the download error, an empty file
sequence, and the nodes from the successful usage lookup; the other error
slots stay empty. -/
theorem download_failure_preserves_usage (b : CookbookBackend)
    (ref : CookbookVersionRef) (e : String) (ns : List String)
    (hd : b.Download ref = .error e) (hu : b.NodesUsing ref = .ok ns) :
    aggregateOne b ref = ⟨ref.Name, ref.Version, [], ns, some e, none, none⟩ := by
  simp [aggregateOne, hd, hu, usageNodes, usageError]

/-- Witness for C4 at a concrete backend. -/
theorem download_failure_preserves_usage_witness :
    aggregateOne downloadFailBackend refW =
      ⟨"apache2", "1.0.0", [], ["nodeA", "nodeB"], some "network error", none, none⟩ :=
  download_failure_preserves_usage downloadFailBackend refW "network error"
    ["nodeA", "nodeB"] rfl rfl

/-- Counterexample to C2: a record whose download and usage lookup both fail
carries two populated error slots at once, because the usage lookup is
attempted independently of the download outcome. -/
theorem two_error_slots_both_populated :
    (aggregateOne failingBackend refW).DownloadError = some "network error" ∧
      (aggregateOne failingBackend refW).UsageLookupError = some "search failed" :=
  ⟨rfl, rfl⟩

/-- C2 (amended): the download and analysis error slots are mutually
exclusive — the analysis stage only runs after a successful download — but
the usage-lookup error slot is independent and may accompany either. -/
theorem download_and_cookstyle_errors_exclusive (b : CookbookBackend)
    (ref : CookbookVersionRef) :
    (aggregateOne b ref).DownloadError = none ∨
      (aggregateOne b ref).CookstyleError = none := by
  cases hd : b.Download ref with
  | error e => right; simp [aggregateOne, hd]
  | ok path =>
    cases hc : b.RunCookstyle path with
    | error e => left; simp [aggregateOne, hd, hc]
    | ok files => left; simp [aggregateOne, hd, hc]

/-- Counterexample to C3: a record whose only populated error slot is the
usage-lookup error keeps its analyzed files and still contributes its full
violation and correctability counts. -/
theorem usage_error_record_keeps_counts :
    (aggregateOne usageFailBackend refW).UsageLookupError = some "search failed" ∧
      (aggregateOne usageFailBackend refW).Files = [fileW] ∧
      (aggregateOne usageFailBackend refW).NumOffenses = 2 ∧
      (aggregateOne usageFailBackend refW).NumCorrectable = 1 :=
  ⟨rfl, rfl, rfl, rfl⟩

/-- C3 (amended): a record with a populated download or analysis error slot
has an empty file sequence and zero violation and correctability counts;
and a record with a populated analysis error slot may still have a
non-empty nodes set. -/
theorem download_or_cookstyle_error_empties_files :
    (∀ (b : CookbookBackend) (ref : CookbookVersionRef),
      ((aggregateOne b ref).DownloadError ≠ none ∨
        (aggregateOne b ref).CookstyleError ≠ none) →
      (aggregateOne b ref).Files = [] ∧ (aggregateOne b ref).NumOffenses = 0 ∧
        (aggregateOne b ref).NumCorrectable = 0) ∧
    (∃ (b : CookbookBackend) (ref : CookbookVersionRef),
      (aggregateOne b ref).CookstyleError ≠ none ∧ (aggregateOne b ref).Nodes ≠ []) := by
  constructor
  · intro b ref h
    cases hd : b.Download ref with
    | error e =>
      simp [aggregateOne, hd, CookbookRecord.NumOffenses, CookbookRecord.NumCorrectable,
        countOffenses, countCorrectable]
    | ok path =>
      cases hc : b.RunCookstyle path with
      | error e =>
        simp [aggregateOne, hd, hc, CookbookRecord.NumOffenses,
          CookbookRecord.NumCorrectable, countOffenses, countCorrectable]
      | ok files =>
        exfalso
        rcases h with h | h <;> simp [aggregateOne, hd, hc] at h
  · exact ⟨cookstyleFailBackend, refW, by decide, by decide⟩

/-- Witness for the amended C3 at a concrete backend whose download fails. -/
theorem download_or_cookstyle_error_empties_files_witness :
    (aggregateOne failingBackend refW).Files = [] ∧
      (aggregateOne failingBackend refW).NumOffenses = 0 ∧
      (aggregateOne failingBackend refW).NumCorrectable = 0 :=
  download_or_cookstyle_error_empties_files.1 failingBackend refW
    (Or.inl (by decide))

/-- C8: for every successful catalog listing, the engine returns exactly one
record per listed ref — no record is dropped however its per-record stages
fare. -/
theorem record_count_equals_ref_count (b : CookbookBackend) (skip : Bool)
    (refs : List CookbookVersionRef) (h : b.Listing = .ok refs) :
    ∃ recs, NewCookbooks b skip = .ok recs ∧ recs.length = refs.length := by
  exact ⟨refs.map (aggregateOne b), by simp [NewCookbooks, h], by simp⟩

/-- Witness for C8: the backend whose every per-record stage fails still
yields one record for its one listed ref. -/
theorem record_count_equals_ref_count_witness :
    ∃ recs, NewCookbooks failingBackend true = .ok recs ∧ recs.length = [refW].length :=
  record_count_equals_ref_count failingBackend true [refW] rfl

/-- C10: the engine fails at the top level exactly when the catalog listing
fails; per-cookbook stage errors never surface as a run-level failure. -/
theorem top_level_error_iff_catalog_failure (b : CookbookBackend) (skip : Bool)
    (e : String) :
    NewCookbooks b skip = .error e ↔ b.Listing = .error e := by
  cases h : b.Listing with
  | error e0 => simp [NewCookbooks, h]
  | ok refs => simp [NewCookbooks, h]

/-- Witness for C10 at a concrete backend whose catalog listing fails. -/
theorem top_level_error_iff_catalog_failure_witness :
    NewCookbooks badCatalogBackend true = .error "catalog down" :=
  (top_level_error_iff_catalog_failure badCatalogBackend true "catalog down").mpr rfl

/-- One line of an end-of-report error summary, as built in
`writeCookbookStateReport` and `writeDetailedCookbookStateReport`:
`fmt.Sprintf(" - percent-s (percent-s): percent-v newline", name, version, err)`. -/
def errorEntry (r : CookbookRecord) (e : String) : String :=
  " - " ++ r.Name ++ " (" ++ r.Version ++ "): " ++ e ++ "\n"

/-- The inline error note appended to a record's text, following the
if / else-if chain of `cmd/report.go` lines 171-180: a download error wins
over a cookstyle error, which wins over a usage-lookup error. -/
def recordErrorNote (r : CookbookRecord) : String :=
  match r.DownloadError with
  | some _ => "\nERROR: could not download cookbook (see end of report)"
  | none =>
    match r.CookstyleError with
    | some _ => "\nERROR: could not run cookstyle (see end of report)"
    | none =>
      match r.UsageLookupError with
      | some _ => "\nERROR: unknown violations (see end of report)"
      | none => ""

/-- The contributions of one record to the three error summary builders
(download, cookstyle, usage), following the same if / else-if chain: only
the first populated slot is accumulated. -/
def errorBuilderContribution (r : CookbookRecord) : String × String × String :=
  match r.DownloadError with
  | some e => (errorEntry r e, "", "")
  | none =>
    match r.CookstyleError with
    | some e => ("", errorEntry r e, "")
    | none =>
      match r.UsageLookupError with
      | some e => ("", "", errorEntry r e)
      | none => ("", "", "")

/-- Per-record text of the plain report (`writeCookbookStateReport` lines
166-180 of `cmd/report.go`). -/
def recordSummaryLine (r : CookbookRecord) : String :=
  r.Name ++ " (" ++ r.Version ++ ") " ++ toString r.NumOffenses ++ " violations, " ++
    toString r.NumCorrectable ++ " auto-correctable, " ++ toString r.Nodes.length ++
    " nodes affected" ++ recordErrorNote r

/-- The observable output of one report run: the printed per-record texts in
order, and the final contents of the three error summary builders. -/
structure ReportOutput where
  Lines : List String
  DownloadErrors : String
  CookstyleErrors : String
  UsageFetchErrors : String
deriving DecidableEq

/-- `writeCookbookStateReport` of `cmd/report.go`: iterate the records,
skipping a record whose nodes are empty when `skipUnused` is set — before
anything about it is printed or accumulated — and otherwise emit its text
and accumulate its error entry into the matching builder. -/
def writeCookbookStateReport (skipUnused : Bool) : List CookbookRecord → ReportOutput
  | [] => ⟨[], "", "", ""⟩
  | r :: rest =>
    let tail := writeCookbookStateReport skipUnused rest
    if r.Nodes.length == 0 && skipUnused then tail
    else
      let c := errorBuilderContribution r
      ⟨recordSummaryLine r :: tail.Lines, c.1 ++ tail.DownloadErrors,
        c.2.1 ++ tail.CookstyleErrors, c.2.2 ++ tail.UsageFetchErrors⟩

/-- One offense line of the detailed report:
`fmt.Sprintf("newline tab percent-s (percent-t) percent-s", o.CopName, o.Correctable, o.Message)`. -/
def offenseLine (o : CookbookOffense) : String :=
  "\n\t" ++ o.CopName ++ " (" ++ toString o.Correctable ++ ") " ++ o.Message

/-- The "Files and offenses:" block of the detailed report: files with no
offenses are skipped, the others list their path and offense lines. -/
def fileLines : List CookbookFile → String
  | [] => ""
  | f :: fs =>
    (if f.Offenses.isEmpty then ""
      else "\n - " ++ f.Path ++ ":" ++ String.join (f.Offenses.map offenseLine)) ++
      fileLines fs

/-- Per-record text of the detailed report (`writeDetailedCookbookStateReport`
lines 203-233 of `cmd/report.go`). -/
def detailedRecordText (r : CookbookRecord) : String :=
  "Cookbook: " ++ r.Name ++ " (" ++ r.Version ++ ")\n" ++
    "Violations: " ++ toString r.NumOffenses ++ "\n" ++
    "Auto correctable: " ++ toString r.NumCorrectable ++ "\n" ++
    "Nodes affected: " ++
    (if r.Nodes.length == 0 then "none" else String.intercalate ", " r.Nodes) ++
    "\nFiles and offenses:" ++ fileLines r.Files ++ recordErrorNote r

/-- `writeDetailedCookbookStateReport` of `cmd/report.go`: same skip and
error accumulation as the plain report, with the detailed per-record text. -/
def writeDetailedCookbookStateReport (skipUnused : Bool) :
    List CookbookRecord → ReportOutput
  | [] => ⟨[], "", "", ""⟩
  | r :: rest =>
    let tail := writeDetailedCookbookStateReport skipUnused rest
    if r.Nodes.length == 0 && skipUnused then tail
    else
      let c := errorBuilderContribution r
      ⟨detailedRecordText r :: tail.Lines, c.1 ++ tail.DownloadErrors,
        c.2.1 ++ tail.CookstyleErrors, c.2.2 ++ tail.UsageFetchErrors⟩

/-- `writeErrorBuilders` of `cmd/report.go`: print the header before the
first non-empty builder, then every non-empty builder, to stderr. -/
def writeErrorBuildersAux : List String → Bool → List String
  | [], _ => []
  | b :: bs, firstMsg =>
    if b.length > 0 then
      (if firstMsg then ["* ERROR(s) DETAILS:", b] else [b]) ++
        writeErrorBuildersAux bs false
    else
      writeErrorBuildersAux bs firstMsg

/-- The stderr lines produced by `writeErrorBuilders`. -/
def writeErrorBuilders (errBuilders : List String) : List String :=
  writeErrorBuildersAux errBuilders true

/-- The three error summary builders of a report output, in the order they
are handed to `writeErrorBuilders`. -/
def reportBuilders (out : ReportOutput) : List String :=
  [out.DownloadErrors, out.CookstyleErrors, out.UsageFetchErrors]

theorem plainReport_filter (recs : List CookbookRecord) :
    writeCookbookStateReport true recs =
      writeCookbookStateReport false (recs.filter (fun r => !(r.Nodes.length == 0))) := by
  induction recs with
  | nil => rfl
  | cons r rest ih =>
    by_cases h : r.Nodes.length == 0 <;>
      simp [writeCookbookStateReport, List.filter, h, ih]

theorem detailedReport_filter (recs : List CookbookRecord) :
    writeDetailedCookbookStateReport true recs =
      writeDetailedCookbookStateReport false (recs.filter (fun r => !(r.Nodes.length == 0))) := by
  induction recs with
  | nil => rfl
  | cons r rest ih =>
    by_cases h : r.Nodes.length == 0 <;>
      simp [writeDetailedCookbookStateReport, List.filter, h, ih]

/-- C9: with `skipUnused` set, both report writers behave exactly as if
every record with an empty nodes set had been removed up front — such a
record is skipped before its errors reach the summary builders, so the
end-of-report error summary holds no entry for it, whatever its error
slots contain. -/
theorem skip_unused_error_summary_filtered (recs : List CookbookRecord) :
    writeCookbookStateReport true recs =
      writeCookbookStateReport false (recs.filter (fun r => !(r.Nodes.length == 0))) ∧
    writeDetailedCookbookStateReport true recs =
      writeDetailedCookbookStateReport false (recs.filter (fun r => !(r.Nodes.length == 0))) ∧
    writeErrorBuilders (reportBuilders (writeCookbookStateReport true recs)) =
      writeErrorBuilders (reportBuilders
        (writeCookbookStateReport false (recs.filter (fun r => !(r.Nodes.length == 0))))) := by
  refine ⟨plainReport_filter recs, detailedReport_filter recs, ?_⟩
  rw [plainReport_filter recs]

/-- C1: the engine constructs and returns one record per listed ref whatever
`skipUnused` is — a record with empty nodes is never discarded at the engine
level — and it is the presentation layer that omits an empty-nodes record
from per-record display when `skipUnused` is set. -/
theorem engine_keeps_unused_records_presentation_omits
    (b : CookbookBackend) (skip : Bool) (refs : List CookbookVersionRef)
    (h : b.Listing = .ok refs) :
    NewCookbooks b skip = .ok (refs.map (aggregateOne b)) ∧
    ∀ (r : CookbookRecord) (recs : List CookbookRecord), r.Nodes = [] →
      writeCookbookStateReport true (r :: recs) = writeCookbookStateReport true recs := by
  constructor
  · simp [NewCookbooks, h]
  · intro r recs hr
    simp [writeCookbookStateReport, hr]

/-- Witness for C1: the all-stages-failing backend still yields its record
(with empty nodes), and the plain report with `skipUnused` set omits that
record entirely. -/
theorem engine_keeps_unused_records_presentation_omits_witness :
    NewCookbooks failingBackend true = .ok ([refW].map (aggregateOne failingBackend)) ∧
    writeCookbookStateReport true [aggregateOne failingBackend refW] =
      writeCookbookStateReport true [] :=
  ⟨(engine_keeps_unused_records_presentation_omits failingBackend true [refW] rfl).1,
    (engine_keeps_unused_records_presentation_omits failingBackend true [refW] rfl).2
      (aggregateOne failingBackend refW) [] rfl⟩

/-- The Y/N rendering of an offense's correctable flag in the CSV report. -/
def offenseYN (o : CookbookOffense) : String :=
  if o.Correctable then "Y" else "N"

/-- The CSV header row written by `writeDetailedCSV`. -/
def csvHeader : List String :=
  ["Cookbook Name", "Version", "File", "Offense", "Automatically Correctable",
    "Message", "Nodes"]

/-- A continuation row of `writeDetailedCSV` (its else branch): only the
offense columns are filled. -/
def offenseRow (o : CookbookOffense) : List String :=
  ["", "", "", o.CopName, offenseYN o, o.Message, ""]

/-- The first row written for a record by `writeDetailedCSV`: cookbook name,
version, the file's path, the file's first offense, and the node list. -/
def firstRowFor (r : CookbookRecord) (f : CookbookFile) (o : CookbookOffense) :
    List String :=
  [r.Name, r.Version, f.Path, o.CopName, offenseYN o, o.Message,
    String.intercalate " " r.Nodes]

/-- The rows `writeDetailedCSV` emits for one record's files, threading the
`firstRowPopulated` flag of `cmd/report.go` lines 257-286: a file with no
offenses is skipped; while the flag is unset, the next file with offenses
contributes the single combined first row built from its first offense (the
loop then moves to the next file, so that file's remaining offenses are
never written); once the flag is set, every offense of a later file gets its
own row. -/
def csvFileRows (r : CookbookRecord) : List CookbookFile → Bool → List (List String)
  | [], _ => []
  | f :: fs, firstRowPopulated =>
    match f.Offenses with
    | [] => csvFileRows r fs firstRowPopulated
    | o :: _ =>
      if firstRowPopulated then
        f.Offenses.map offenseRow ++ csvFileRows r fs true
      else
        firstRowFor r f o :: csvFileRows r fs true

/-- `writeDetailedCSV` of `cmd/report.go`: the header row followed by the
rows of every record not skipped by the `skipUnused` filter. -/
def writeDetailedCSV (skipUnused : Bool) (records : List CookbookRecord) :
    List (List String) :=
  csvHeader ::
    (records.map (fun r =>
      if r.Nodes.length == 0 && skipUnused then [] else csvFileRows r r.Files false)).flatten

/-- Offense count of the first file that has any offenses (zero when every
file is clean). -/
def firstNonEmptyOffenseCount : List CookbookFile → Nat
  | [] => 0
  | f :: fs =>
    match f.Offenses with
    | [] => firstNonEmptyOffenseCount fs
    | _ => f.Offenses.length

theorem csvFileRows_true_length (r : CookbookRecord) (fs : List CookbookFile) :
    (csvFileRows r fs true).length = countOffenses fs := by
  induction fs with
  | nil => rfl
  | cons f fs ih =>
    cases hf : f.Offenses with
    | nil => simp [csvFileRows, hf, countOffenses, ih]
    | cons o os =>
      simp [csvFileRows, hf, countOffenses, ih]
      omega

theorem csvFileRows_false_length (r : CookbookRecord) (fs : List CookbookFile)
    (h : 1 ≤ firstNonEmptyOffenseCount fs) :
    (csvFileRows r fs false).length + firstNonEmptyOffenseCount fs =
      countOffenses fs + 1 := by
  induction fs with
  | nil => simp [firstNonEmptyOffenseCount] at h
  | cons f fs ih =>
    cases hf : f.Offenses with
    | nil =>
      have h0 : firstNonEmptyOffenseCount (f :: fs) = firstNonEmptyOffenseCount fs := by
        simp [firstNonEmptyOffenseCount, hf]
      rw [h0] at h ⊢
      simp only [csvFileRows, hf, countOffenses]
      simpa using ih h
    | cons o os =>
      simp [csvFileRows, hf, countOffenses, firstNonEmptyOffenseCount,
        csvFileRows_true_length]
      omega

/-- C6: for a record whose first file with any offenses holds more than one
offense, the CSV writer emits exactly one row for that file and one row per
offense of the later files — so the rows written for the record (the CSV
output minus its header) number strictly fewer than the record's total
offense count: the first file's remaining offenses are silently dropped. -/
theorem detailed_csv_drops_first_file_tail (r : CookbookRecord)
    (h : 2 ≤ firstNonEmptyOffenseCount r.Files) :
    writeDetailedCSV false [r] = csvHeader :: csvFileRows r r.Files false ∧
    (csvFileRows r r.Files false).length + firstNonEmptyOffenseCount r.Files =
      r.NumOffenses + 1 ∧
    (csvFileRows r r.Files false).length < r.NumOffenses := by
  refine ⟨by simp [writeDetailedCSV], ?_, ?_⟩
  · exact csvFileRows_false_length r r.Files (le_trans (by norm_num) h)
  · have := csvFileRows_false_length r r.Files (le_trans (by norm_num) h)
    have h2 : r.NumOffenses = countOffenses r.Files := rfl
    omega

/-- A clean record with a single two-offense file. -/
def recordW : CookbookRecord :=
  ⟨"apache2", "1.0.0", [fileW], ["nodeA"], none, none, none⟩

/-- Witness for C6: the record with one file of two offenses yields a single
offense row, one fewer than its two offenses. -/
theorem detailed_csv_drops_first_file_tail_witness :
    writeDetailedCSV false [recordW] = csvHeader :: csvFileRows recordW recordW.Files false ∧
    (csvFileRows recordW recordW.Files false).length +
        firstNonEmptyOffenseCount recordW.Files = recordW.NumOffenses + 1 ∧
    (csvFileRows recordW recordW.Files false).length < recordW.NumOffenses :=
  detailed_csv_drops_first_file_tail recordW (by decide)

/-- Modelled from the spec: the decision of the Static Analyzer Adapter
(absent `pkg/reporting` package, spec section 4.3).  Given the exit code of
the external tool and the parse outcome of its standard output, the adapter
succeeds exactly when the output parsed — the exit code is non-authoritative
and only flavours the failure message. -/
def cookstyleResult (exitCode : Nat) (parsed : Option (List CookbookFile)) :
    Except String (List CookbookFile) :=
  match parsed with
  | some files => .ok files
  | none => .error ("cookstyle output could not be parsed, exit code " ++ toString exitCode)

/-- Modelled from the spec: the structured-output decoder of the Static
Analyzer Adapter (absent `pkg/reporting` package), restricted to the
payloads the mock cookstyle fixture emits: the empty object payload decodes
to zero file entries; the fixture's malformed payload and an empty output
do not decode. -/
def decodeCookstyle (out : String) : Option (List CookbookFile) :=
  if out = "\x7b\x7d" then some [] else none

/-- The adapter applied to a captured invocation: decode the output, then
decide by parseability. -/
def analyzeOutput (exitCode : Nat) (out : String) : Except String (List CookbookFile) :=
  cookstyleResult exitCode (decodeCookstyle out)

/-- Whether an adapter outcome is a success. -/
def analyzeSucceeded (res : Except String (List CookbookFile)) : Bool :=
  match res with
  | .ok _ => true
  | .error _ => false

/-- The mock cookstyle script (the unnamed shell fixture): its exit code and
standard output per first argument, with the second argument as the
requested exit code of the exit-code-error case. -/
def mockCookstyle (arg : String) (code : Nat) : Nat × String :=
  if arg = "syntax-error" then (0, "\x7b error \x7d")
  else if arg = "known-exit-code-error" then (1, "\x7b\x7d")
  else if arg = "exit-code-error" then (code, "")
  else (0, "\x7b\x7d")

/-- The adapter run against the mock cookstyle script. -/
def analyzeMock (arg : String) (code : Nat) : Except String (List CookbookFile) :=
  analyzeOutput (mockCookstyle arg code).1 (mockCookstyle arg code).2

/-- C5: the adapter succeeds exactly when the tool's output parses,
independently of the exit code — a parseable payload is a success with the
emitted offenses even under a non-zero exit, and an unparseable or missing
payload is a failure even under a clean exit.  On the mock fixture: the
default case and the non-zero known-exit-code-error case (exit 1, payload
decoding to zero offenses) succeed with no error set, while the
syntax-error case (clean exit, malformed payload) and the exit-code-error
case (no payload) fail. -/
theorem analyzer_success_iff_parseable :
    (∀ (exitCode : Nat) (files : List CookbookFile),
      cookstyleResult exitCode (some files) = .ok files) ∧
    (∀ exitCode : Nat, analyzeSucceeded (cookstyleResult exitCode none) = false) ∧
    (∀ (exitCode : Nat) (out : String),
      analyzeSucceeded (analyzeOutput exitCode out) = (decodeCookstyle out).isSome) ∧
    (mockCookstyle "known-exit-code-error" 0).1 = 1 ∧
    analyzeMock "known-exit-code-error" 0 = .ok [] ∧
    analyzeMock "cookbook-dir" 0 = .ok [] ∧
    analyzeSucceeded (analyzeMock "syntax-error" 0) = false ∧
    analyzeSucceeded (analyzeMock "exit-code-error" 2) = false := by
  refine ⟨fun _ _ => rfl, fun _ => rfl, ?_, rfl, rfl, rfl, rfl, rfl⟩
  intro exitCode out
  cases h : decodeCookstyle out <;> simp [analyzeOutput, cookstyleResult, h, analyzeSucceeded]
